import Mathlib

/-!
Verification of the hyperquant trading-platform client library.

The definitions below are a shallow embedding, in Lean, of the data model and
the algorithms of the library: the canonical value objects (trades, orders,
candles, ...), their Python equality methods, the JSON serialization helpers,
the REST result range filter, the REST request preprocessing of the
from_item/to_item params, the WebSocket subscription generation and storage,
and the WebSocket reconnect backoff.  Python values held in the dynamically
typed object fields are modelled by the inductive type `JValue`; Python
truthiness and the Python `==` on such values are modelled by `jtruthy` and
`jeq`.  Fallible code (code that can raise) is modelled with `Option`.
-/

namespace HyperQuant

/-- Dynamic value held by a field of a value object: Python `None`, a number
(int or Decimal; only integral values are needed by the claims), a string, a
list, or a dict. -/
inductive JValue where
  | null
  | num (n : ℤ)
  | str (s : String)
  | arr (l : List JValue)
  | dict (l : List (String × JValue))
deriving Repr, Inhabited

/-- Python truthiness of a `JValue`: `None`, `0`, the empty string, the empty
list and the empty dict are falsy, everything else is truthy. -/
def jtruthy : JValue → Bool
  | .null => false
  | .num n => n ≠ 0
  | .str s => s ≠ ""
  | .arr l => !l.isEmpty
  | .dict l => !l.isEmpty

mutual

/-- Python `==` on the modelled values: `None == None` holds, numbers compare
numerically (so the numeric `Decimal == int` equality is a single-constructor
comparison here), strings compare as strings, lists and dicts compare
elementwise, and values of different kinds compare unequal. -/
def jeq : JValue → JValue → Bool
  | .null, .null => true
  | .num a, .num b => a == b
  | .str a, .str b => a == b
  | .arr a, .arr b => jeqList a b
  | .dict a, .dict b => jeqDict a b
  | _, _ => false

/-- Elementwise Python `==` of two lists of values. -/
def jeqList : List JValue → List JValue → Bool
  | [], [] => true
  | x :: xs, y :: ys => jeq x y && jeqList xs ys
  | _, _ => false

/-- Python `==` of two dicts (the dicts built by the modelled code always list
their keys in the same insertion order). -/
def jeqDict : List (String × JValue) → List (String × JValue) → Bool
  | [], [] => true
  | (k₁, v₁) :: xs, (k₂, v₂) :: ys => k₁ == k₂ && jeq v₁ v₂ && jeqDict xs ys
  | _, _ => false

end

/-- The Python `==` of the model agrees with structural equality of `JValue`. -/
theorem jeq_iff_eq : ∀ a b : JValue, jeq a b = true ↔ a = b := by
  refine JValue.rec
    (motive_1 := fun a => ∀ b, jeq a b = true ↔ a = b)
    (motive_2 := fun l => ∀ m, jeqList l m = true ↔ l = m)
    (motive_3 := fun l => ∀ m, jeqDict l m = true ↔ l = m)
    (motive_4 := fun p => ∀ q : String × JValue, (p.1 == q.1 && jeq p.2 q.2) = true ↔ p = q)
    ?_ ?_ ?_ ?_ ?_ ?_ ?_ ?_ ?_ ?_
  · intro b; cases b <;> simp [jeq]
  · intro n b; cases b <;> simp [jeq]
  · intro s b; cases b <;> simp [jeq]
  · intro l ih b; cases b <;> simp [jeq]; exact ih _
  · intro l ih b; cases b <;> simp [jeq]; exact ih _
  · intro m; cases m <;> simp [jeqList]
  · intro x xs ihx ihxs m
    cases m with
    | nil => simp [jeqList]
    | cons y ys => simp [jeqList, ihx y, ihxs ys]
  · intro m; cases m <;> simp [jeqDict]
  · intro p ps ihp ihps m
    obtain ⟨k, v⟩ := p
    cases m with
    | nil => simp [jeqDict]
    | cons q qs =>
      obtain ⟨k₂, v₂⟩ := q
      have h := ihp (k₂, v₂)
      simp only at h
      simp [jeqDict, ihps qs, Bool.and_assoc, ← h]
      tauto
  · intro k v ihv q
    obtain ⟨k₂, v₂⟩ := q
    simp [ihv, Prod.ext_iff]

/-- Python `==` of the model is reflexive. -/
theorem jeq_refl (a : JValue) : jeq a a = true := (jeq_iff_eq a a).mpr rfl

instance : DecidableEq JValue := fun a b => decidable_of_iff _ (jeq_iff_eq a b)

/-! The canonical item hierarchy: ItemObject and its Trade-family subclasses,
with the Python equality methods of the source. -/

/-- Concrete class of an item inside the ItemObject hierarchy slice needed
here (`MyTrade < Trade < ItemObject`). -/
inductive ICls where
  | itemObject
  | trade
  | myTrade
deriving DecidableEq, Repr

/-- Python `isinstance` for the modelled hierarchy: `isSubclassOf c d` holds
when class `c` equals `d` or is a subclass of `d`. -/
def isSubclassOf : ICls → ICls → Bool
  | .itemObject, .itemObject => true
  | .trade, .itemObject => true
  | .trade, .trade => true
  | .myTrade, _ => true
  | _, _ => false

/-- An instance of ItemObject or of one of its Trade-family subclasses, with
the dynamically typed fields of the Python objects (class attributes default
to `None`).  The fields `order_id`, `fee` and `rebate` only exist on MyTrade
instances in the source; carrying them on every record is harmless because no
modelled method reads them on a Trade. -/
structure Item where
  cls : ICls := .trade
  platform_id : JValue := .null
  symbol : JValue := .null
  timestamp : JValue := .null
  item_id : JValue := .null
  amount : JValue := .null
  price : JValue := .null
  direction : JValue := .null
  order_id : JValue := .null
  fee : JValue := .null
  rebate : JValue := .null
  is_milliseconds : Bool := false
deriving DecidableEq, Repr

/-- The `__eq__` of ItemObject: `o and isinstance(o, self.__class__) and
self.platform_id == o.platform_id and self.item_id == o.item_id and
self.symbol == o.symbol and (self.item_id is not None or self.timestamp ==
o.timestamp)`.  Objects are always truthy, so the leading `o and` holds. -/
def itemObjectEqPy (a b : Item) : Bool :=
  isSubclassOf b.cls a.cls
    && jeq a.platform_id b.platform_id
    && jeq a.item_id b.item_id
    && jeq a.symbol b.symbol
    && (a.item_id != JValue.null || jeq a.timestamp b.timestamp)

/-- The `__eq__` of Trade (inherited unchanged by MyTrade): false when the
ItemObject equality fails, and additionally, when `self.item_id` is None,
false when amount, price or direction differ. -/
def tradeEqPy (a b : Item) : Bool :=
  itemObjectEqPy a b
    && !(a.item_id == JValue.null
          && (!jeq a.amount b.amount || !jeq a.price b.price
                || !jeq a.direction b.direction))

/-- The `__eq__` implementation a class uses: ItemObject its own, Trade its
own, MyTrade the one inherited from Trade. -/
def eqOfCls : ICls → Item → Item → Bool
  | .itemObject => itemObjectEqPy
  | _ => tradeEqPy

/-- Python dispatch of `a == b` for the modelled hierarchy: when the right
operand's class is a proper subclass of the left operand's, CPython tries the
right operand's `__eq__` first (no override is needed for rich comparisons);
these `__eq__` methods return a definitive bool for object operands, never
NotImplemented, so that first answer stands.  Otherwise the left operand's
`__eq__` runs. -/
def pyEq (a b : Item) : Bool :=
  if b.cls ≠ a.cls ∧ isSubclassOf b.cls a.cls = true then eqOfCls b.cls b a
  else eqOfCls a.cls a b

/-! The Order value object with its derived status and amount properties. -/

/-- An Order instance with the dynamically typed fields of the source class
(all default to `None`). -/
structure Order where
  platform_id : JValue := .null
  symbol : JValue := .null
  timestamp : JValue := .null
  item_id : JValue := .null
  user_order_id : JValue := .null
  order_type : JValue := .null
  amount_original : JValue := .null
  amount_executed : JValue := .null
  price : JValue := .null
  price_stop : JValue := .null
  direction : JValue := .null
  order_status : JValue := .null
  is_milliseconds : Bool := false
deriving DecidableEq, Repr

/-- `OrderStatus.open = [NEW, PARTIALLY_FILLED, OPEN] = [2, 3, 1]` from the
api module. -/
def orderStatusOpenList : List ℤ := [2, 3, 1]

/-- `OrderStatus.closed = [FILLED, CANCELED, REJECTED, EXPIRED] = [5, 6, 7, 8]`
from the api module. -/
def orderStatusClosedList : List ℤ := [5, 6, 7, 8]

/-- `Order.is_open`: `self.order_status in OrderStatus.open` (the Python `in`
compares with `==`). -/
def Order.is_open (o : Order) : Bool :=
  orderStatusOpenList.any fun k => jeq o.order_status (.num k)

/-- `Order.is_closed`: `self.order_status in OrderStatus.closed`. -/
def Order.is_closed (o : Order) : Bool :=
  orderStatusClosedList.any fun k => jeq o.order_status (.num k)

/-- Truthiness of `Order.is_new`, which the source computes as `self.is_open
and self.amount_executed and self.amount_executed == 0`: a chained `and` is
truthy exactly when every operand is truthy. -/
def Order.is_new (o : Order) : Bool :=
  o.is_open && jtruthy o.amount_executed && jeq o.amount_executed (.num 0)

/-- Python subtraction on field values: defined for numbers, a `TypeError`
(modelled as `none`) otherwise. -/
def jsub : JValue → JValue → Option JValue
  | .num a, .num b => some (.num (a - b))
  | _, _ => none

/-- `Order.amount_left`: `self.amount_original - self.amount_executed if
self.amount_original and self.amount_executed else self.amount_original`. -/
def Order.amount_left (o : Order) : Option JValue :=
  if jtruthy o.amount_original && jtruthy o.amount_executed then
    jsub o.amount_original o.amount_executed
  else some o.amount_original

/-! Theorems for claims C9, C10 and C8. -/

/-- A Trade instance with an item_id, as received from a platform. -/
def aTradeItem : Item :=
  { cls := .trade, platform_id := .num 1, symbol := .str "BTCUSD",
    timestamp := .num 1500000000000, item_id := .num 42,
    amount := .num 3, price := .num 7000, direction := .num 1 }

/-- A MyTrade instance carrying exactly the same field values. -/
def aMyTradeItem : Item := { aTradeItem with cls := .myTrade }

/-- The same trade listed under a different symbol. -/
def aTradeOtherSymbol : Item := { aTradeItem with symbol := .str "ETHUSD" }

/-- C9, counterexample: two Trades of the same concrete type with the same
platform and the same (present) item_id but different symbols are unequal in
the code - `ItemObject.__eq__` compares the symbols unconditionally - while
the claim says that with item_id present the platform and item_id alone
decide equality. -/
theorem trade_symbol_equality_counterexample :
    aTradeItem.cls = aTradeOtherSymbol.cls
      ∧ aTradeItem.platform_id = aTradeOtherSymbol.platform_id
      ∧ aTradeItem.item_id = aTradeOtherSymbol.item_id
      ∧ aTradeItem.item_id ≠ JValue.null
      ∧ pyEq aTradeItem aTradeOtherSymbol = false := by
  refine ⟨rfl, rfl, rfl, by decide, rfl⟩

/-- C9, amended: two items compare equal iff they are of the same concrete
type, with the same platform, the same item_id (including both None), the
same symbol - required even when item_id is present, the sole divergence from
the claim - and, when the item_id is None, the same timestamp plus, for the
Trade family, the same amount, price and direction.  In particular items of
different concrete types are never equal (Python runs the proper-subclass
right operand's `__eq__` first, whose `isinstance` check fails against the
superclass instance) and equality is symmetric, as the claim states. -/
theorem pyEq_characterization :
    (∀ a b : Item,
      pyEq a b = true ↔
        (a.cls = b.cls ∧ a.platform_id = b.platform_id
          ∧ a.item_id = b.item_id ∧ a.symbol = b.symbol
          ∧ (a.item_id ≠ .null ∨ a.timestamp = b.timestamp)
          ∧ (a.cls ≠ .itemObject → a.item_id = .null →
              a.amount = b.amount ∧ a.price = b.price
                ∧ a.direction = b.direction)))
    ∧ (∀ a b : Item, a.cls ≠ b.cls → pyEq a b = false)
    ∧ (∀ a b : Item, pyEq a b = pyEq b a) := by
  have hch : ∀ a b : Item,
      pyEq a b = true ↔
        (a.cls = b.cls ∧ a.platform_id = b.platform_id
          ∧ a.item_id = b.item_id ∧ a.symbol = b.symbol
          ∧ (a.item_id ≠ .null ∨ a.timestamp = b.timestamp)
          ∧ (a.cls ≠ .itemObject → a.item_id = .null →
              a.amount = b.amount ∧ a.price = b.price
                ∧ a.direction = b.direction)) := by
    intro a b
    cases ha : a.cls <;> cases hb : b.cls <;>
      simp [pyEq, eqOfCls, ha, hb, itemObjectEqPy, tradeEqPy, isSubclassOf,
        jeq_iff_eq] <;>
      tauto
  have hsymm1 : ∀ a b : Item, pyEq a b = true → pyEq b a = true := by
    intro a b h
    obtain ⟨h1, h2, h3, h4, h5, h6⟩ := (hch a b).mp h
    refine (hch b a).mpr ⟨h1.symm, h2.symm, h3.symm, h4.symm, ?_, ?_⟩
    · rcases h5 with h5 | h5
      · left; rw [← h3]; exact h5
      · right; exact h5.symm
    · intro hc hi
      obtain ⟨e1, e2, e3⟩ := h6 (by rw [h1]; exact hc) (by rw [h3]; exact hi)
      exact ⟨e1.symm, e2.symm, e3.symm⟩
  refine ⟨hch, ?_, ?_⟩
  · intro a b hne
    cases hpq : pyEq a b
    · rfl
    · exact absurd ((hch a b).mp hpq).1 hne
  · intro a b
    cases hab : pyEq a b <;> cases hba : pyEq b a
    · rfl
    · exact absurd (hsymm1 b a hba) (by simp [hab])
    · exact absurd (hsymm1 a b hab) (by simp [hba])
    · rfl

/-- C9, witness: the never-equal-across-types part instantiated at a Trade
and a field-identical MyTrade (equality is false, in both directions by the
symmetry part). -/
theorem pyEq_characterization_witness :
    pyEq aTradeItem aMyTradeItem = false :=
  pyEq_characterization.2.1 aTradeItem aMyTradeItem (by decide)

/-- C10 (confirmed): the truthiness of `Order.is_new` is false for every
order, whatever the order_status, amount_original and amount_executed hold:
the condition requires `amount_executed` to be truthy (hence a nonzero
number, or a non-number) and simultaneously `== 0`, which is unsatisfiable,
so no order is ever reported as new. -/
theorem order_is_new_never_truthy (o : Order) : o.is_new = false := by
  unfold Order.is_new
  cases h : o.amount_executed <;> simp [jtruthy, jeq]

/-- An order violating both claimed Order invariants: its order_status is
None (in neither status list), its amount_original is 0 while its
amount_executed is 5. -/
def anOrderCounterexample : Order :=
  { order_status := .null, amount_original := .num 0, amount_executed := .num 5 }

/-- C8, counterexample: for the order with order_status None, amount_original
0 and amount_executed 5, is_open and is_closed are both false (so the claimed
exclusive-or fails), and amount_left evaluates to 0, so amount_executed +
amount_left = 5 + 0 differs from amount_original = 0 (so the claimed amount
identity fails as well). -/
theorem order_invariants_counterexample :
    ¬ Xor' (anOrderCounterexample.is_open = true) (anOrderCounterexample.is_closed = true)
      ∧ anOrderCounterexample.amount_left = some (.num 0)
      ∧ (5 + 0 : ℤ) ≠ 0 := by
  refine ⟨by decide, rfl, by decide⟩

/-- C8, amended: the two Order invariants hold on the domain the code
supports: exactly one of is_open/is_closed is true whenever order_status is
one of the known open or closed status codes (for other values, e.g. None,
both are false); and amount_original = amount_executed + amount_left whenever
amount_original and amount_executed are numbers such that amount_executed is 0
if amount_original is 0 (for amount_original 0 with a nonzero
amount_executed, amount_left falls back to amount_original and the identity
fails). -/
theorem order_invariants_amended :
    (∀ o : Order,
        (∃ k, (k ∈ orderStatusOpenList ∨ k ∈ orderStatusClosedList)
            ∧ o.order_status = .num k) →
        Xor' (o.is_open = true) (o.is_closed = true))
      ∧ (∀ (o : Order) (a b : ℤ),
          o.amount_original = .num a → o.amount_executed = .num b →
          (a = 0 → b = 0) →
          ∃ c : ℤ, o.amount_left = some (.num c) ∧ b + c = a) := by
  constructor
  · rintro o ⟨k, hk, hs⟩
    simp [orderStatusOpenList, orderStatusClosedList] at hk
    have hcases : k = 2 ∨ k = 3 ∨ k = 1 ∨ k = 5 ∨ k = 6 ∨ k = 7 ∨ k = 8 := by tauto
    rcases hcases with h | h | h | h | h | h | h <;> subst h <;>
      simp [Xor', Order.is_open, Order.is_closed, hs,
            orderStatusOpenList, orderStatusClosedList, jeq]
  · intro o a b ho he hz
    by_cases hb : b = 0
    · subst hb
      refine ⟨a, ?_, by ring⟩
      simp [Order.amount_left, ho, he, jtruthy]
    · have ha : a ≠ 0 := fun h0 => hb (hz h0)
      refine ⟨a - b, ?_, by ring⟩
      simp [Order.amount_left, ho, he, jtruthy, ha, hb, jsub]

/-- C8, witness for the amended invariants: an order with status
PARTIALLY_FILLED (3) is open and not closed, and an order with
amount_original 10 and amount_executed 4 has amount_left 6 with 4 + 6 = 10. -/
theorem order_invariants_amended_witness :
    Xor' ((Order.mk .null .null .null .null .null .null (.num 10) (.num 4)
            .null .null .null (.num 3) false).is_open = true)
        ((Order.mk .null .null .null .null .null .null (.num 10) (.num 4)
            .null .null .null (.num 3) false).is_closed = true)
      ∧ ∃ c : ℤ,
          (Order.mk .null .null .null .null .null .null (.num 10) (.num 4)
            .null .null .null (.num 3) false).amount_left = some (.num c)
          ∧ 4 + c = 10 :=
  ⟨order_invariants_amended.1 _ ⟨3, by simp [orderStatusOpenList], rfl⟩,
   order_invariants_amended.2 _ 10 4 rfl rfl (by omega)⟩

/-! The REST converter: request params, the from_item/to_item preprocessing
and the post-fetch range filter. -/

/-- The request params the modelled RESTConverter methods read: the FROM_ITEM,
TO_ITEM and SORTING entries of the params dict (`none` models an absent key;
an explicit None value behaves identically through `params.get`). -/
structure RParams where
  from_item : Option Item := none
  to_item : Option Item := none
  sorting : Option String := none
deriving DecidableEq, Repr

/-- Truthiness of an optional item object: absent (or None) is falsy, an item
object is always truthy. -/
def itemOptFalsy : Option Item → Bool
  | none => true
  | some _ => false

/-- Python `x or 0` followed by an integer comparison, as in
`(from_item.timestamp or 0) > (to_item.timestamp or 0)`: falsy values become
0, numbers stay, and a truthy non-number would make the `>` raise (`none`). -/
def orZeroInt : JValue → Option ℤ
  | .null => some 0
  | .num n => some n
  | .str s => if s = "" then some 0 else none
  | .arr l => if l.isEmpty then some 0 else none
  | .dict l => if l.isEmpty then some 0 else none

/-- `RESTConverter._get_real_sorting`: the SORTING param if present and
truthy, otherwise the converter default (the base class computes the default
through its value lookup; it is passed in here as `defSorting`). -/
def get_real_sorting (defSorting : String) (params : RParams) : String :=
  match params.sorting with
  | some s => if s ≠ "" then s else defSorting
  | none => defSorting

/-- `RESTConverter._process_from_item_param`.  The source returns early when
`not from_item or not to_item or not params`, so the only reachable work is
the swap of FROM_ITEM and TO_ITEM when from_item's timestamp is newer; the
final `if is_descending and not to_item` block that would move FROM_ITEM into
TO_ITEM tests the local `to_item` variable, which is a truthy item object in
every path reaching it, and is therefore dead code (modelled by the same test
on the bound value). -/
def process_from_item_param (defSorting : String) (params : RParams) :
    Option RParams :=
  let is_descending := get_real_sorting defSorting params == "desc"
  match params.from_item, params.to_item with
  | some f, some t => do
      let ft ← orZeroInt f.timestamp
      let tt ← orZeroInt t.timestamp
      let is_from_newer_than_to := ft > tt
      let params₁ :=
        if is_from_newer_than_to then
          { params with from_item := some t, to_item := some f }
        else params
      let params₂ :=
        if is_descending && itemOptFalsy (some t) then
          { params₁ with to_item := params₁.from_item, from_item := none }
        else params₁
      some params₂
  | _, _ => some params

/-- `time_util.get_timestamp_ms` for the value shapes the range filter feeds
it: `None` propagates (`not value and value != 0`), a number below the
1500000000 * 10 threshold is treated as seconds and scaled to milliseconds,
larger numbers pass through; the datetime/string-parsing branches are not
reachable from the modelled items (`none`). -/
def get_timestamp_ms : JValue → Option JValue
  | .null => some .null
  | .num n => some (.num (if n < 15000000000 then n * 1000 else n))
  | .arr l => if l.isEmpty then some .null else some .null
  | .dict l => if l.isEmpty then some .null else none
  | .str _ => none

/-- Python `a >= b` on field values: defined for numbers, a `TypeError`
otherwise. -/
def jge : JValue → JValue → Option Bool
  | .num a, .num b => some (a ≥ b)
  | _, _ => none

/-- Python `a > b` on field values: defined for numbers, a `TypeError`
otherwise. -/
def jgt : JValue → JValue → Option Bool
  | .num a, .num b => some (a > b)
  | _, _ => none

/-- The scan loop of `RESTConverter._filter_result`: an item is appended when
`not from_time or item.timestamp >= from_time`, and right after appending the
loop breaks when `item == to_item or to_time and item.timestamp > to_time`
(with the Python short-circuit order). -/
def filterLoop (to_item : Option Item) (from_time to_time : JValue) :
    List Item → Option (List Item)
  | [] => some []
  | item :: rest => do
      let keep ← if jtruthy from_time then jge item.timestamp from_time
                 else some true
      if keep then
        let brkEq := match to_item with
          | some t => pyEq item t
          | none => false
        if brkEq then some [item]
        else do
          let brkTime ← if jtruthy to_time then jgt item.timestamp to_time
                        else some false
          if brkTime then some [item]
          else do
            let tail ← filterLoop to_item from_time to_time rest
            some (item :: tail)
      else filterLoop to_item from_time to_time rest

/-- `RESTConverter._filter_result`: computes `start_index =
result.index(from_item) if from_item and from_item in result else -1`, scans
`result[start_index:]` when `start_index > 0` and the whole list otherwise,
and runs the append/break loop. -/
def filter_result (result : List Item) (from_item to_item : Option Item)
    (from_time to_time : JValue) : Option (List Item) :=
  let start_index : ℤ :=
    match from_item with
    | some f =>
        match result.findIdx? (fun item => pyEq item f) with
        | some i => (i : ℤ)
        | none => -1
    | none => -1
  let scanned := if start_index > 0 then result.drop start_index.toNat else result
  filterLoop to_item from_time to_time scanned

/-- `RESTConverter._filter_result_by_params` on the base converter
(`use_milliseconds = True`): converts the bound items' timestamps with
`time_util.get_timestamp`, widens `to_time` by 1000 ms, and filters only when
a bound is present (the logging in the source does not affect the result). -/
def filter_result_by_params (result : List Item) (params : RParams) :
    Option (List Item) := do
  let from_time ← match params.from_item with
    | some f => get_timestamp_ms f.timestamp
    | none => pure .null
  let to_time₀ ← match params.to_item with
    | some t => get_timestamp_ms t.timestamp
    | none => pure .null
  let to_time ← match to_time₀ with
    | .null => pure JValue.null
    | .num n => pure (JValue.num (n + 1000))
    | _ => none
  if params.from_item.isSome || params.to_item.isSome then
    filter_result result params.from_item params.to_item from_time to_time
  else pure result

/-! Theorems for claims C1 and C2. -/

/-- Trade number `i` of a descending-sorted history of 10 trades with
distinct timestamps 10 seconds apart (later list positions are older). -/
def mkDescTrade (i : ℤ) : Item :=
  { cls := .trade, platform_id := .num 1, symbol := .str "BTCUSD",
    timestamp := .num (1600000000000 + (9 - i) * 10000), item_id := .num i,
    amount := .num (i + 1), price := .num 500, direction := .num 1 }

/-- The descending 10-trade history list[0..9] of claim C1. -/
def tradesDescending : List Item :=
  [mkDescTrade 0, mkDescTrade 1, mkDescTrade 2, mkDescTrade 3, mkDescTrade 4,
   mkDescTrade 5, mkDescTrade 6, mkDescTrade 7, mkDescTrade 8, mkDescTrade 9]

/-- C1, evaluation of the post-fetch range filter on a descending-sorted list
of 10 trades with distinct timestamps: with from_item = list[2] and to_item =
list[7] the filter returns just [list[2]] (not list[2..7]); with the
arguments swapped it returns just [list[7]] (so the result is not
order-independent); with only from_item it returns just [list[2]] (not
everything from list[2] to the end); with neither bound it returns the input
unchanged (the only part of the claim the code satisfies). -/
theorem filter_result_descending_evaluation :
    filter_result_by_params tradesDescending
        { from_item := some (mkDescTrade 2), to_item := some (mkDescTrade 7) }
      = some [mkDescTrade 2]
    ∧ filter_result_by_params tradesDescending
        { from_item := some (mkDescTrade 7), to_item := some (mkDescTrade 2) }
      = some [mkDescTrade 7]
    ∧ filter_result_by_params tradesDescending { from_item := some (mkDescTrade 2) }
      = some [mkDescTrade 2]
    ∧ filter_result_by_params tradesDescending {} = some tradesDescending := by
  exact ⟨rfl, rfl, rfl, rfl⟩

/-- A params dict with a descending SORTING, a FROM_ITEM and no TO_ITEM. -/
def aFromOnlyParams : RParams :=
  { from_item := some (mkDescTrade 5), sorting := some "desc" }

/-- C2, evaluation of `_process_from_item_param`: when only FROM_ITEM is given
with descending sorting and no TO_ITEM, the params are returned unchanged
(FROM_ITEM still present, TO_ITEM still absent) because the early `not
from_item or not to_item` return fires before the move, which contradicts the
claimed from_item-to-TO_ITEM move; when both items are given with from_item
chronologically after to_item, they are swapped as claimed. -/
theorem process_from_item_evaluation :
    process_from_item_param "default_sorting" aFromOnlyParams = some aFromOnlyParams
    ∧ process_from_item_param "default_sorting"
        { from_item := some (mkDescTrade 2), to_item := some (mkDescTrade 7),
          sorting := some "desc" }
      = some { from_item := some (mkDescTrade 7), to_item := some (mkDescTrade 2),
               sorting := some "desc" } := by
  exact ⟨rfl, rfl⟩

/-! The WSClient reconnect backoff performed by `_on_close`. -/

/-- The slice of WSClient state the `_on_close` backoff reads and writes:
`_reconnect_tries` (reset to 0 on a successful open) and
`reconnect_delay_sec` (class default 3, overwritten by the backoff). -/
structure WSBackoffState where
  reconnect_tries : ℕ
  reconnect_delay_sec : ℤ
deriving DecidableEq, Repr

/-- One close event inside the reconnect branch of `WSClient._on_close` (the
source notes that `is_started` is always true there): when `_reconnect_tries
!= 0 and reconnect_delay_sec > 0`, the delay is overwritten with
`2**(min(_reconnect_tries, 8))` and slept; otherwise no sleep happens.
`_reconnect_tries` is then incremented and the reconnect is issued.  Returns
the recorded sleep delay (0 when the branch does not sleep) and the next
state. -/
def onCloseStep (s : WSBackoffState) : ℤ × WSBackoffState :=
  if s.reconnect_tries ≠ 0 ∧ s.reconnect_delay_sec > 0 then
    let d : ℤ := 2 ^ min s.reconnect_tries 8
    (d, { reconnect_tries := s.reconnect_tries + 1, reconnect_delay_sec := d })
  else
    (0, { s with reconnect_tries := s.reconnect_tries + 1 })

/-- The backoff state after `n` consecutive close events, starting from a
fresh connection (zero tries, configured base delay). -/
def backoffStateAfter (base : ℤ) : ℕ → WSBackoffState
  | 0 => { reconnect_tries := 0, reconnect_delay_sec := base }
  | n + 1 => (onCloseStep (backoffStateAfter base n)).2

/-- The sleep delay recorded during the close event that triggers reconnect
attempt `n + 1`, i.e. after `n` earlier consecutive close events. -/
def recordedDelay (base : ℤ) (n : ℕ) : ℤ :=
  (onCloseStep (backoffStateAfter base n)).1

/-- Invariant of the backoff state: after `n` consecutive closes the try
counter is `n` and the stored delay is still the base for `n ≤ 1` and
`2 ^ min (n - 1) 8` afterwards. -/
theorem backoffStateAfter_spec (base : ℤ) (hbase : 0 < base) (n : ℕ) :
    (backoffStateAfter base n).reconnect_tries = n
      ∧ (backoffStateAfter base n).reconnect_delay_sec
          = if n ≤ 1 then base else 2 ^ min (n - 1) 8 := by
  induction n with
  | zero => simp [backoffStateAfter]
  | succ n ih =>
    obtain ⟨ht, hd⟩ := ih
    rcases Nat.eq_zero_or_pos n with hn | hn
    · subst hn
      simp at ht hd
      simp [backoffStateAfter, onCloseStep, ht, hd]
    · have hdpos : (backoffStateAfter base n).reconnect_delay_sec > 0 := by
        rw [hd]
        split
        · exact hbase
        · positivity
      have hne : (backoffStateAfter base n).reconnect_tries ≠ 0 := by omega
      have hn0 : n ≠ 0 := by omega
      constructor
      · simp [backoffStateAfter, onCloseStep, hne, hdpos, ht, hn0]
      · have : ¬ (n + 1 ≤ 1) := by omega
        simp [backoffStateAfter, onCloseStep, hne, hdpos, ht, hn0, this]

/-- C5, counterexample: with the class-default base delay of 3 seconds, the
delay recorded before reconnect attempt 2 (after one close event) is 2
seconds, while the claimed formula base * 2^min(1, cap) yields 3 or 6 for
every possible cap, never 2: the configured base is not a factor of the
actual delay. -/
theorem backoff_counterexample :
    recordedDelay 3 1 = 2 ∧ ∀ cap : ℕ, (3 : ℤ) * 2 ^ min 1 cap ≠ recordedDelay 3 1 := by
  constructor
  · rfl
  · intro cap
    match cap with
    | 0 => decide
    | k + 1 =>
      have : min 1 (k + 1) = 1 := by omega
      rw [this]
      decide

/-- C5, amended: starting from a fresh connection with any positive configured
base delay, the very first reconnect attempt is performed with zero delay,
and the delay recorded before attempt N + 1 (N ≥ 1) is 2 ^ min(N, 8): the
exponential backoff ignores the configured base (which only enables the
backoff by being positive) and caps the exponent at the hardcoded 8. -/
theorem backoff_amended (base : ℤ) (hbase : 0 < base) (n : ℕ) :
    recordedDelay base 0 = 0
      ∧ (1 ≤ n → recordedDelay base n = 2 ^ min n 8) := by
  constructor
  · simp [recordedDelay, backoffStateAfter, onCloseStep]
  · intro hn
    obtain ⟨ht, hd⟩ := backoffStateAfter_spec base hbase n
    have hdpos : (backoffStateAfter base n).reconnect_delay_sec > 0 := by
      rw [hd]
      split
      · exact hbase
      · positivity
    have hne : (backoffStateAfter base n).reconnect_tries ≠ 0 := by omega
    have hn0 : n ≠ 0 := by omega
    simp [recordedDelay, onCloseStep, hne, hdpos, ht, hn0]

/-- C5, witness for the amended backoff law: base 3, first attempt delay 0,
and delay 2 ^ min(1, 8) = 2 before attempt 2. -/
theorem backoff_amended_witness :
    recordedDelay 3 0 = 0 ∧ (1 ≤ 1 → recordedDelay 3 1 = 2 ^ min 1 8) :=
  backoff_amended 3 (by decide) 1

/-! JSON serialization of the canonical value objects: `ValueObject.to_json`
(array representation via `convert_items_obj_to_list`, map representation via
`convert_items_obj_to_dict`) and `ValueObject.from_json` (via
`apply_data_on_obj`). -/

/-- The list branch of `apply_data_on_obj`: `for i, p in
enumerate(item_format): if i >= len(item): break; setattr(obj, p, item[i])`. -/
def applyListData {α} (set : α → String → JValue → α) (format : List String)
    (obj : α) (data : List JValue) : α :=
  (format.zip data).foldl (fun o pv => set o pv.1 pv.2) obj

/-- Python `item.get(p)` on a serialized dict. -/
def lookupParam (data : List (String × JValue)) (p : String) : Option JValue :=
  (data.find? (fun kv => kv.1 == p)).map (fun kv => kv.2)

/-- The dict branch of `apply_data_on_obj`: `for p in item_format: if p in
item: setattr(obj, p, item.get(p))`. -/
def applyDictData {α} (set : α → String → JValue → α) (format : List String)
    (obj : α) (data : List (String × JValue)) : α :=
  format.foldl (fun o p =>
    match lookupParam data p with
    | some v => set o p v
    | none => o) obj

/-- The trailing step of `apply_data_on_obj` for objects having both an
`is_milliseconds` and a `timestamp` attribute: when the (already applied)
timestamp is truthy, `obj.is_milliseconds = obj.timestamp > 15000000000`; the
comparison raises for a truthy non-number. -/
def applyMsHeuristic {α} (ts : JValue) (setMs : Bool → α) (keep : α) : Option α :=
  if jtruthy ts then
    match ts with
    | .num n => some (setMs (decide (n > 15000000000)))
    | _ => none
  else some keep

/-- A timestamp field holding a value of its documented type: an integer
number of time units, or None. -/
def tsOkP (v : JValue) : Prop := v = .null ∨ ∃ n : ℤ, v = .num n

/-- Reduction of the millisecond heuristic at a truthy numeric timestamp. -/
theorem applyMsHeuristic_num_ne {α} (n : ℤ) (h0 : n ≠ 0) (setMs : Bool → α)
    (keep : α) :
    applyMsHeuristic (.num n) setMs keep
      = some (setMs (decide (n > 15000000000))) := by
  simp [applyMsHeuristic, jtruthy, h0]

/-- The shared ItemObject part of the `__eq__` methods, specialized to
operands of one concrete class (so the `isinstance` test holds): platform_id,
item_id and symbol must agree, and the timestamps must agree when the left
item_id is None. -/
def itemObjectEqFields (apid aiid asym ats bpid biid bsym bts : JValue) : Bool :=
  jeq apid bpid && jeq aiid biid && jeq asym bsym
    && (aiid != JValue.null || jeq ats bts)

/-- A Candle instance (`item_id` is always None on candles, so it is not a
field of the model). -/
structure Candle where
  platform_id : JValue := .null
  symbol : JValue := .null
  interval : JValue := .null
  timestamp : JValue := .null
  timestamp_close : JValue := .null
  price_open : JValue := .null
  price_close : JValue := .null
  price_high : JValue := .null
  price_low : JValue := .null
  volume : JValue := .null
  trades_count : JValue := .null
  is_milliseconds : Bool := false
deriving DecidableEq, Repr

/-- `item_format_by_endpoint[Endpoint.CANDLE]`. -/
def candleFormat : List String :=
  ["platform_id", "symbol", "interval", "timestamp", "timestamp_close",
   "price_open", "price_close", "price_high", "price_low", "volume",
   "trades_count"]

/-- Python `getattr` for the format params of Candle. -/
def Candle.getP (c : Candle) : String → JValue
  | "platform_id" => c.platform_id
  | "symbol" => c.symbol
  | "interval" => c.interval
  | "timestamp" => c.timestamp
  | "timestamp_close" => c.timestamp_close
  | "price_open" => c.price_open
  | "price_close" => c.price_close
  | "price_high" => c.price_high
  | "price_low" => c.price_low
  | "volume" => c.volume
  | "trades_count" => c.trades_count
  | _ => .null

/-- Python `setattr` for the format params of Candle. -/
def Candle.setP (c : Candle) : String → JValue → Candle
  | "platform_id", v => { c with platform_id := v }
  | "symbol", v => { c with symbol := v }
  | "interval", v => { c with interval := v }
  | "timestamp", v => { c with timestamp := v }
  | "timestamp_close", v => { c with timestamp_close := v }
  | "price_open", v => { c with price_open := v }
  | "price_close", v => { c with price_close := v }
  | "price_high", v => { c with price_high := v }
  | "price_low", v => { c with price_low := v }
  | "volume", v => { c with volume := v }
  | "trades_count", v => { c with trades_count := v }
  | _, _ => c

/-- `candle.to_json(is_list=True)`: the format-ordered field array (every
format param is an attribute of the class, so `hasattr` always holds). -/
def Candle.toJsonArr (c : Candle) : List JValue := candleFormat.map c.getP

/-- `candle.to_json(is_list=False)`: the field-name-keyed map. -/
def Candle.toJsonMap (c : Candle) : List (String × JValue) :=
  candleFormat.map fun p => (p, c.getP p)

/-- `Candle().from_json(data)` for an array payload. -/
def Candle.fromJsonArr (data : List JValue) : Option Candle :=
  let obj := applyListData Candle.setP candleFormat {} data
  applyMsHeuristic obj.timestamp (fun b => { obj with is_milliseconds := b }) obj

/-- `Candle().from_json(data)` for a map payload. -/
def Candle.fromJsonMap (data : List (String × JValue)) : Option Candle :=
  let obj := applyDictData Candle.setP candleFormat {} data
  applyMsHeuristic obj.timestamp (fun b => { obj with is_milliseconds := b }) obj

/-- `Candle.__eq__` on two candles: the ItemObject part (item_id is None on
both, so the timestamps are always compared), then interval, the four prices,
volume and trades_count; timestamp_close is not compared. -/
def candleEqPy (a b : Candle) : Bool :=
  itemObjectEqFields a.platform_id .null a.symbol a.timestamp
      b.platform_id .null b.symbol b.timestamp
    && jeq a.interval b.interval
    && jeq a.price_open b.price_open
    && jeq a.price_close b.price_close
    && jeq a.price_high b.price_high
    && jeq a.price_low b.price_low
    && jeq a.volume b.volume
    && jeq a.trades_count b.trades_count

/-- A Ticker instance (no item_id on tickers). -/
structure Ticker where
  platform_id : JValue := .null
  symbol : JValue := .null
  timestamp : JValue := .null
  price : JValue := .null
  is_milliseconds : Bool := false
deriving DecidableEq, Repr

/-- `item_format_by_endpoint[Endpoint.TICKER]`. -/
def tickerFormat : List String := ["platform_id", "symbol", "timestamp", "price"]

/-- Python `getattr` for the format params of Ticker. -/
def Ticker.getP (t : Ticker) : String → JValue
  | "platform_id" => t.platform_id
  | "symbol" => t.symbol
  | "timestamp" => t.timestamp
  | "price" => t.price
  | _ => .null

/-- Python `setattr` for the format params of Ticker. -/
def Ticker.setP (t : Ticker) : String → JValue → Ticker
  | "platform_id", v => { t with platform_id := v }
  | "symbol", v => { t with symbol := v }
  | "timestamp", v => { t with timestamp := v }
  | "price", v => { t with price := v }
  | _, _ => t

/-- `ticker.to_json(is_list=True)`. -/
def Ticker.toJsonArr (t : Ticker) : List JValue := tickerFormat.map t.getP

/-- `ticker.to_json(is_list=False)`. -/
def Ticker.toJsonMap (t : Ticker) : List (String × JValue) :=
  tickerFormat.map fun p => (p, t.getP p)

/-- `Ticker().from_json(data)` for an array payload. -/
def Ticker.fromJsonArr (data : List JValue) : Option Ticker :=
  let obj := applyListData Ticker.setP tickerFormat {} data
  applyMsHeuristic obj.timestamp (fun b => { obj with is_milliseconds := b }) obj

/-- `Ticker().from_json(data)` for a map payload. -/
def Ticker.fromJsonMap (data : List (String × JValue)) : Option Ticker :=
  let obj := applyDictData Ticker.setP tickerFormat {} data
  applyMsHeuristic obj.timestamp (fun b => { obj with is_milliseconds := b }) obj

/-- `Ticker.__eq__`: the ItemObject part, then the price. -/
def tickerEqPy (a b : Ticker) : Bool :=
  itemObjectEqFields a.platform_id .null a.symbol a.timestamp
      b.platform_id .null b.symbol b.timestamp
    && jeq a.price b.price

/-- A Quote instance (no item_id on quotes). -/
structure Quote where
  platform_id : JValue := .null
  symbol : JValue := .null
  timestamp : JValue := .null
  bestbid : JValue := .null
  bestask : JValue := .null
  is_milliseconds : Bool := false
deriving DecidableEq, Repr

/-- `item_format_by_endpoint[Endpoint.QUOTE]`. -/
def quoteFormat : List String :=
  ["platform_id", "symbol", "timestamp", "bestask", "bestbid"]

/-- Python `getattr` for the format params of Quote. -/
def Quote.getP (q : Quote) : String → JValue
  | "platform_id" => q.platform_id
  | "symbol" => q.symbol
  | "timestamp" => q.timestamp
  | "bestask" => q.bestask
  | "bestbid" => q.bestbid
  | _ => .null

/-- Python `setattr` for the format params of Quote. -/
def Quote.setP (q : Quote) : String → JValue → Quote
  | "platform_id", v => { q with platform_id := v }
  | "symbol", v => { q with symbol := v }
  | "timestamp", v => { q with timestamp := v }
  | "bestask", v => { q with bestask := v }
  | "bestbid", v => { q with bestbid := v }
  | _, _ => q

/-- `quote.to_json(is_list=True)`. -/
def Quote.toJsonArr (q : Quote) : List JValue := quoteFormat.map q.getP

/-- `quote.to_json(is_list=False)`. -/
def Quote.toJsonMap (q : Quote) : List (String × JValue) :=
  quoteFormat.map fun p => (p, q.getP p)

/-- `Quote().from_json(data)` for an array payload. -/
def Quote.fromJsonArr (data : List JValue) : Option Quote :=
  let obj := applyListData Quote.setP quoteFormat {} data
  applyMsHeuristic obj.timestamp (fun b => { obj with is_milliseconds := b }) obj

/-- `Quote().from_json(data)` for a map payload. -/
def Quote.fromJsonMap (data : List (String × JValue)) : Option Quote :=
  let obj := applyDictData Quote.setP quoteFormat {} data
  applyMsHeuristic obj.timestamp (fun b => { obj with is_milliseconds := b }) obj

/-- `Quote.__eq__`: the ItemObject part, then bestask and bestbid. -/
def quoteEqPy (a b : Quote) : Bool :=
  itemObjectEqFields a.platform_id .null a.symbol a.timestamp
      b.platform_id .null b.symbol b.timestamp
    && jeq a.bestask b.bestask && jeq a.bestbid b.bestbid

/-- An Account instance (a DataObject: its class attribute `is_milliseconds`
defaults to True). -/
structure Account where
  platform_id : JValue := .null
  timestamp : JValue := .null
  is_milliseconds : Bool := true
deriving DecidableEq, Repr

/-- `item_format_by_endpoint[Endpoint.ACCOUNT]`. -/
def accountFormat : List String := ["platform_id", "timestamp"]

/-- Python `getattr` for the format params of Account. -/
def Account.getP (a : Account) : String → JValue
  | "platform_id" => a.platform_id
  | "timestamp" => a.timestamp
  | _ => .null

/-- Python `setattr` for the format params of Account. -/
def Account.setP (a : Account) : String → JValue → Account
  | "platform_id", v => { a with platform_id := v }
  | "timestamp", v => { a with timestamp := v }
  | _, _ => a

/-- `account.to_json(is_list=True)`. -/
def Account.toJsonArr (a : Account) : List JValue := accountFormat.map a.getP

/-- `account.to_json(is_list=False)`. -/
def Account.toJsonMap (a : Account) : List (String × JValue) :=
  accountFormat.map fun p => (p, a.getP p)

/-- `Account().from_json(data)` for an array payload (Account has both an
is_milliseconds and a timestamp attribute, so the heuristic runs). -/
def Account.fromJsonArr (data : List JValue) : Option Account :=
  let obj := applyListData Account.setP accountFormat {} data
  applyMsHeuristic obj.timestamp (fun b => { obj with is_milliseconds := b }) obj

/-- `Account().from_json(data)` for a map payload. -/
def Account.fromJsonMap (data : List (String × JValue)) : Option Account :=
  let obj := applyDictData Account.setP accountFormat {} data
  applyMsHeuristic obj.timestamp (fun b => { obj with is_milliseconds := b }) obj

/-- `Account.__eq__`: same class, same platform_id, same timestamp. -/
def accountEqPy (a b : Account) : Bool :=
  jeq a.platform_id b.platform_id && jeq a.timestamp b.timestamp

/-- A Balance instance (a DataObject without a timestamp attribute, so the
millisecond heuristic of `apply_data_on_obj` is skipped for it). -/
structure Balance where
  platform_id : JValue := .null
  symbol : JValue := .null
  amount_available : JValue := .null
  amount_reserved : JValue := .null
  amount_borrowed : JValue := .null
  pnl : JValue := .null
  margin_balance : JValue := .null
deriving DecidableEq, Repr

/-- `item_format_by_endpoint[Endpoint.BALANCE]` (the BALANCE_CONVERTED entry
is the identical list). -/
def balanceFormat : List String :=
  ["platform_id", "symbol", "amount_available", "amount_reserved",
   "amount_borrowed", "pnl"]

/-- Python `getattr` for the format params of Balance. -/
def Balance.getP (b : Balance) : String → JValue
  | "platform_id" => b.platform_id
  | "symbol" => b.symbol
  | "amount_available" => b.amount_available
  | "amount_reserved" => b.amount_reserved
  | "amount_borrowed" => b.amount_borrowed
  | "pnl" => b.pnl
  | _ => .null

/-- Python `setattr` for the format params of Balance. -/
def Balance.setP (b : Balance) : String → JValue → Balance
  | "platform_id", v => { b with platform_id := v }
  | "symbol", v => { b with symbol := v }
  | "amount_available", v => { b with amount_available := v }
  | "amount_reserved", v => { b with amount_reserved := v }
  | "amount_borrowed", v => { b with amount_borrowed := v }
  | "pnl", v => { b with pnl := v }
  | _, _ => b

/-- `balance.to_json(is_list=True)`. -/
def Balance.toJsonArr (b : Balance) : List JValue := balanceFormat.map b.getP

/-- `balance.to_json(is_list=False)`. -/
def Balance.toJsonMap (b : Balance) : List (String × JValue) :=
  balanceFormat.map fun p => (p, b.getP p)

/-- `Balance().from_json(data)` for an array payload: no timestamp attribute,
hence no heuristic and no way to raise. -/
def Balance.fromJsonArr (data : List JValue) : Balance :=
  applyListData Balance.setP balanceFormat {} data

/-- `Balance().from_json(data)` for a map payload. -/
def Balance.fromJsonMap (data : List (String × JValue)) : Balance :=
  applyDictData Balance.setP balanceFormat {} data

/-- `Balance.__eq__`: platform_id, symbol and the three amounts (pnl and
margin_balance are not compared). -/
def balanceEqPy (a b : Balance) : Bool :=
  jeq a.platform_id b.platform_id && jeq a.symbol b.symbol
    && jeq a.amount_available b.amount_available
    && jeq a.amount_reserved b.amount_reserved
    && jeq a.amount_borrowed b.amount_borrowed

/-- `item_format_by_endpoint[Endpoint.TRADE]`. -/
def tradeItemFormat : List String :=
  ["platform_id", "symbol", "timestamp", "item_id", "price", "amount",
   "direction"]

/-- `item_format_by_endpoint[Endpoint.TRADE_MY]`. -/
def myTradeItemFormat : List String :=
  ["platform_id", "symbol", "timestamp", "item_id", "price", "amount",
   "direction", "order_id", "fee", "rebate"]

/-- The item format `to_json`/`from_json` select through
`endpoint_by_item_class` and `item_format_by_endpoint`: Trade serializes
through the TRADE format, MyTrade through the TRADE_MY format, and the
ItemObject base class has no `endpoint_by_item_class` entry, so its format is
None and the conversion helper raises (`none`). -/
def itemFormatFor : ICls → Option (List String)
  | .trade => some tradeItemFormat
  | .myTrade => some myTradeItemFormat
  | .itemObject => none

/-- Python `getattr` for the format params of the Trade family. -/
def Item.getP (t : Item) : String → JValue
  | "platform_id" => t.platform_id
  | "symbol" => t.symbol
  | "timestamp" => t.timestamp
  | "item_id" => t.item_id
  | "price" => t.price
  | "amount" => t.amount
  | "direction" => t.direction
  | "order_id" => t.order_id
  | "fee" => t.fee
  | "rebate" => t.rebate
  | _ => .null

/-- Python `setattr` for the format params of the Trade family. -/
def Item.setP (t : Item) : String → JValue → Item
  | "platform_id", v => { t with platform_id := v }
  | "symbol", v => { t with symbol := v }
  | "timestamp", v => { t with timestamp := v }
  | "item_id", v => { t with item_id := v }
  | "price", v => { t with price := v }
  | "amount", v => { t with amount := v }
  | "direction", v => { t with direction := v }
  | "order_id", v => { t with order_id := v }
  | "fee", v => { t with fee := v }
  | "rebate", v => { t with rebate := v }
  | _, _ => t

/-- `trade.to_json(is_list=True)` for a Trade-family item. -/
def Item.toJsonArr (t : Item) : Option (List JValue) :=
  (itemFormatFor t.cls).map fun fmt => fmt.map t.getP

/-- `trade.to_json(is_list=False)` for a Trade-family item. -/
def Item.toJsonMap (t : Item) : Option (List (String × JValue)) :=
  (itemFormatFor t.cls).map fun fmt => fmt.map fun p => (p, t.getP p)

/-- `Trade().from_json(data)` / `MyTrade().from_json(data)` for an array
payload (a fresh instance of class `c` has all fields None and
`is_milliseconds = False`). -/
def Item.fromJsonArr (c : ICls) (data : List JValue) : Option Item := do
  let fmt ← itemFormatFor c
  let obj := applyListData Item.setP fmt { cls := c } data
  applyMsHeuristic obj.timestamp (fun b => { obj with is_milliseconds := b }) obj

/-- `Trade().from_json(data)` / `MyTrade().from_json(data)` for a map
payload. -/
def Item.fromJsonMap (c : ICls) (data : List (String × JValue)) : Option Item := do
  let fmt ← itemFormatFor c
  let obj := applyDictData Item.setP fmt { cls := c } data
  applyMsHeuristic obj.timestamp (fun b => { obj with is_milliseconds := b }) obj

/-- `item_format_by_endpoint[Endpoint.ORDER]`. -/
def orderFormat : List String :=
  ["platform_id", "symbol", "timestamp", "item_id", "user_order_id",
   "order_type", "amount_original", "amount_executed", "price", "direction",
   "order_status", "price_stop"]

/-- Python `getattr` for the format params of Order. -/
def Order.getP (o : Order) : String → JValue
  | "platform_id" => o.platform_id
  | "symbol" => o.symbol
  | "timestamp" => o.timestamp
  | "item_id" => o.item_id
  | "user_order_id" => o.user_order_id
  | "order_type" => o.order_type
  | "amount_original" => o.amount_original
  | "amount_executed" => o.amount_executed
  | "price" => o.price
  | "direction" => o.direction
  | "order_status" => o.order_status
  | "price_stop" => o.price_stop
  | _ => .null

/-- Python `setattr` for the format params of Order. -/
def Order.setP (o : Order) : String → JValue → Order
  | "platform_id", v => { o with platform_id := v }
  | "symbol", v => { o with symbol := v }
  | "timestamp", v => { o with timestamp := v }
  | "item_id", v => { o with item_id := v }
  | "user_order_id", v => { o with user_order_id := v }
  | "order_type", v => { o with order_type := v }
  | "amount_original", v => { o with amount_original := v }
  | "amount_executed", v => { o with amount_executed := v }
  | "price", v => { o with price := v }
  | "direction", v => { o with direction := v }
  | "order_status", v => { o with order_status := v }
  | "price_stop", v => { o with price_stop := v }
  | _, _ => o

/-- `order.to_json(is_list=True)`. -/
def Order.toJsonArr (o : Order) : List JValue := orderFormat.map o.getP

/-- `order.to_json(is_list=False)`. -/
def Order.toJsonMap (o : Order) : List (String × JValue) :=
  orderFormat.map fun p => (p, o.getP p)

/-- `Order().from_json(data)` for an array payload. -/
def Order.fromJsonArr (data : List JValue) : Option Order :=
  let obj := applyListData Order.setP orderFormat {} data
  applyMsHeuristic obj.timestamp (fun b => { obj with is_milliseconds := b }) obj

/-- `Order().from_json(data)` for a map payload. -/
def Order.fromJsonMap (data : List (String × JValue)) : Option Order :=
  let obj := applyDictData Order.setP orderFormat {} data
  applyMsHeuristic obj.timestamp (fun b => { obj with is_milliseconds := b }) obj

/-- `Order.__eq__`: the ItemObject part, then user_order_id, order_type, the
two amounts, price, direction and order_status (price_stop is not
compared). -/
def orderEqPy (a b : Order) : Bool :=
  itemObjectEqFields a.platform_id a.item_id a.symbol a.timestamp
      b.platform_id b.item_id b.symbol b.timestamp
    && jeq a.user_order_id b.user_order_id
    && jeq a.order_type b.order_type
    && jeq a.amount_original b.amount_original
    && jeq a.amount_executed b.amount_executed
    && jeq a.price b.price
    && jeq a.direction b.direction
    && jeq a.order_status b.order_status

/-- A Position instance (a DataObject with a timestamp attribute; the
`_is_open` flag plays no role in serialization or equality). -/
structure Position where
  platform_id : JValue := .null
  symbol : JValue := .null
  timestamp : JValue := .null
  amount : JValue := .null
  direction : JValue := .null
  average_price : JValue := .null
  margincall_price : JValue := .null
  profit_n_loss : JValue := .null
  amount_borrowed : JValue := .null
  is_milliseconds : Bool := true
deriving DecidableEq, Repr

/-- `item_format_by_endpoint[Endpoint.POSITION]`. -/
def positionFormat : List String :=
  ["platform_id", "symbol", "timestamp", "amount", "direction"]

/-- Python `getattr` for the format params of Position. -/
def Position.getP (p : Position) : String → JValue
  | "platform_id" => p.platform_id
  | "symbol" => p.symbol
  | "timestamp" => p.timestamp
  | "amount" => p.amount
  | "direction" => p.direction
  | _ => .null

/-- Python `setattr` for the format params of Position. -/
def Position.setP (p : Position) : String → JValue → Position
  | "platform_id", v => { p with platform_id := v }
  | "symbol", v => { p with symbol := v }
  | "timestamp", v => { p with timestamp := v }
  | "amount", v => { p with amount := v }
  | "direction", v => { p with direction := v }
  | _, _ => p

/-- `position.to_json(is_list=True)`. -/
def Position.toJsonArr (p : Position) : List JValue := positionFormat.map p.getP

/-- `position.to_json(is_list=False)`. -/
def Position.toJsonMap (p : Position) : List (String × JValue) :=
  positionFormat.map fun q => (q, p.getP q)

/-- `Position().from_json(data)` for an array payload. -/
def Position.fromJsonArr (data : List JValue) : Option Position :=
  let obj := applyListData Position.setP positionFormat {} data
  applyMsHeuristic obj.timestamp (fun b => { obj with is_milliseconds := b }) obj

/-- `Position().from_json(data)` for a map payload. -/
def Position.fromJsonMap (data : List (String × JValue)) : Option Position :=
  let obj := applyDictData Position.setP positionFormat {} data
  applyMsHeuristic obj.timestamp (fun b => { obj with is_milliseconds := b }) obj

/-- `Position.__eq__`: platform_id, symbol, timestamp, amount and direction. -/
def positionEqPy (a b : Position) : Bool :=
  jeq a.platform_id b.platform_id && jeq a.symbol b.symbol
    && jeq a.timestamp b.timestamp && jeq a.amount b.amount
    && jeq a.direction b.direction

/-- An OrderBookItem held in the asks/bids of an order book. -/
structure OrderBookItem where
  platform_id : JValue := .null
  symbol : JValue := .null
  timestamp : JValue := .null
  item_id : JValue := .null
  amount : JValue := .null
  price : JValue := .null
  direction : JValue := .null
  orders_count : JValue := .null
  is_milliseconds : Bool := false
deriving DecidableEq, Repr

/-- An OrderBook instance: scalar fields plus the asks/bids lists of
OrderBookItem objects (None, or a list). -/
structure OrderBook where
  platform_id : JValue := .null
  symbol : JValue := .null
  timestamp : JValue := .null
  item_id : JValue := .null
  asks : Option (List OrderBookItem) := none
  bids : Option (List OrderBookItem) := none
  is_milliseconds : Bool := false
deriving DecidableEq, Repr

/-- The asks/bids slot of `orderbook.to_json(is_list=True)`:
`OrderBook._convert_to_json` converts a nonempty list of OrderBookItem
through `OrderBookItem.ITEM_FORMAT = [amount, price, direction]`, leaves an
empty list unchanged (the `if v` guard), and leaves None unchanged. -/
def obSideToJsonArr : Option (List OrderBookItem) → JValue
  | none => .null
  | some items =>
      if items.isEmpty then .arr []
      else .arr (items.map fun it => .arr [it.amount, it.price, it.direction])

/-- The asks/bids slot of `orderbook.to_json(is_list=False)`: nested items
become field-name-keyed dicts. -/
def obSideToJsonMap : Option (List OrderBookItem) → JValue
  | none => .null
  | some items =>
      if items.isEmpty then .arr []
      else .arr (items.map fun it =>
        .dict [("amount", it.amount), ("price", it.price),
               ("direction", it.direction)])

/-- `orderbook.to_json(is_list=True)` over
`item_format_by_endpoint[Endpoint.ORDER_BOOK] = [platform_id, symbol,
timestamp, item_id, asks, bids]` (the ORDER_BOOK_AGG entry used by
AggOrderBook is the identical list). -/
def OrderBook.toJsonArr (ob : OrderBook) : List JValue :=
  [ob.platform_id, ob.symbol, ob.timestamp, ob.item_id,
   obSideToJsonArr ob.asks, obSideToJsonArr ob.bids]

/-- `orderbook.to_json(is_list=False)`. -/
def OrderBook.toJsonMap (ob : OrderBook) : List (String × JValue) :=
  [("platform_id", ob.platform_id), ("symbol", ob.symbol),
   ("timestamp", ob.timestamp), ("item_id", ob.item_id),
   ("asks", obSideToJsonArr ob.asks), ("bids", obSideToJsonArr ob.bids)]

/-- `OrderBook.from_json` (inherited unchanged by OrderBookDiff and
AggOrderBook) runs `super().from_json(data)`, converts asks and bids back to
OrderBookItem objects with `convert_items_to_obj`, and then unconditionally
executes `self._on_bids_asks_updated()` as its final statement.  No method
`_on_bids_asks_updated` is defined anywhere in the repository - the call site
is the sole occurrence of the name - so every call of `OrderBook.from_json`
raises AttributeError, modelled as `none`, whatever the payload. -/
def OrderBook.fromJsonArr (_data : List JValue) : Option OrderBook := none

/-- `OrderBook.from_json` on a map payload: raises identically. -/
def OrderBook.fromJsonMap (_data : List (String × JValue)) : Option OrderBook :=
  none

/-! Theorems for claim C7. -/

/-- An order book whose single ask is fully populated. -/
def anOrderBook : OrderBook :=
  { platform_id := .num 1, symbol := .str "BTCUSD",
    timestamp := .num 1600000000000,
    asks := some [{ amount := .num 2, price := .num 50000,
                    direction := .num 0, orders_count := .num 3 }],
    bids := some [] }

/-- C7, counterexample: OrderBook has entries in both
`endpoint_by_item_class` and `item_format_by_endpoint`, yet applying
`from_json` to the serialized output of `to_json` raises AttributeError for
both representations (the method ends with a call to the undefined
`_on_bids_asks_updated`), so the round trip yields no object at all, let
alone one equal to the original. -/
theorem orderbook_roundtrip_counterexample :
    OrderBook.fromJsonArr (OrderBook.toJsonArr anOrderBook) = none
      ∧ OrderBook.fromJsonMap (OrderBook.toJsonMap anOrderBook) = none :=
  ⟨rfl, rfl⟩

set_option maxHeartbeats 1600000 in
/-- C7, amended: for every canonical item type with entries in both
`endpoint_by_item_class` and `item_format_by_endpoint` except the OrderBook
family, and for instances whose timestamp holds a value of its documented
type (an integer or None), `from_json` applied to the `to_json` output
reproduces an object equal to the original under the type's own equality,
for both the ordered-array and the field-name-keyed map representation and
for fully-populated as well as partially-None instances; the OrderBook
family is excluded because its `from_json` always raises (see the
counterexample). -/
theorem serialization_roundtrip_amended :
    (∀ t : Item, t.cls ≠ ICls.itemObject → tsOkP t.timestamp →
      ∃ r, t.toJsonArr.bind (Item.fromJsonArr t.cls) = some r
        ∧ t.toJsonMap.bind (Item.fromJsonMap t.cls) = some r
        ∧ pyEq r t = true)
    ∧ (∀ c : Candle, tsOkP c.timestamp →
      ∃ r, Candle.fromJsonArr c.toJsonArr = some r
        ∧ Candle.fromJsonMap c.toJsonMap = some r
        ∧ candleEqPy r c = true)
    ∧ (∀ t : Ticker, tsOkP t.timestamp →
      ∃ r, Ticker.fromJsonArr t.toJsonArr = some r
        ∧ Ticker.fromJsonMap t.toJsonMap = some r
        ∧ tickerEqPy r t = true)
    ∧ (∀ q : Quote, tsOkP q.timestamp →
      ∃ r, Quote.fromJsonArr q.toJsonArr = some r
        ∧ Quote.fromJsonMap q.toJsonMap = some r
        ∧ quoteEqPy r q = true)
    ∧ (∀ a : Account, tsOkP a.timestamp →
      ∃ r, Account.fromJsonArr a.toJsonArr = some r
        ∧ Account.fromJsonMap a.toJsonMap = some r
        ∧ accountEqPy r a = true)
    ∧ (∀ b : Balance,
        Balance.fromJsonMap b.toJsonMap = Balance.fromJsonArr b.toJsonArr
        ∧ balanceEqPy (Balance.fromJsonArr b.toJsonArr) b = true)
    ∧ (∀ o : Order, tsOkP o.timestamp →
      ∃ r, Order.fromJsonArr o.toJsonArr = some r
        ∧ Order.fromJsonMap o.toJsonMap = some r
        ∧ orderEqPy r o = true)
    ∧ (∀ p : Position, tsOkP p.timestamp →
      ∃ r, Position.fromJsonArr p.toJsonArr = some r
        ∧ Position.fromJsonMap p.toJsonMap = some r
        ∧ positionEqPy r p = true) := by
  refine ⟨?_, ?_, ?_, ?_, ?_, ?_, ?_, ?_⟩
  · rintro ⟨c, pid, sym, ts, iid, am, pr, dir, oid, fee, reb, ms⟩ hc hts
    cases c
    · exact absurd rfl hc
    · rcases hts with h | ⟨n, h⟩ <;> subst h
      · exact ⟨_, rfl, rfl,
          by simp [pyEq, eqOfCls, tradeEqPy, itemObjectEqPy, isSubclassOf, jeq_refl,
            applyListData, Item.setP, Item.getP, Item.toJsonArr, Item.fromJsonArr,
            tradeItemFormat, myTradeItemFormat, itemFormatFor, applyMsHeuristic]⟩
      · by_cases h0 : n = 0
        · subst h0
          exact ⟨_, rfl, rfl,
            by simp [pyEq, eqOfCls, tradeEqPy, itemObjectEqPy, isSubclassOf, jeq_refl,
            applyListData, Item.setP, Item.getP, Item.toJsonArr, Item.fromJsonArr,
            tradeItemFormat, myTradeItemFormat, itemFormatFor, applyMsHeuristic]⟩
        · exact ⟨_, applyMsHeuristic_num_ne n h0 _ _,
            applyMsHeuristic_num_ne n h0 _ _,
            by simp [pyEq, eqOfCls, tradeEqPy, itemObjectEqPy, isSubclassOf, jeq_refl,
            applyListData, Item.setP, Item.getP, Item.toJsonArr, Item.fromJsonArr,
            tradeItemFormat, myTradeItemFormat, itemFormatFor, applyMsHeuristic]⟩
    · rcases hts with h | ⟨n, h⟩ <;> subst h
      · exact ⟨_, rfl, rfl,
          by simp [pyEq, eqOfCls, tradeEqPy, itemObjectEqPy, isSubclassOf, jeq_refl,
            applyListData, Item.setP, Item.getP, Item.toJsonArr, Item.fromJsonArr,
            tradeItemFormat, myTradeItemFormat, itemFormatFor, applyMsHeuristic]⟩
      · by_cases h0 : n = 0
        · subst h0
          exact ⟨_, rfl, rfl,
            by simp [pyEq, eqOfCls, tradeEqPy, itemObjectEqPy, isSubclassOf, jeq_refl,
            applyListData, Item.setP, Item.getP, Item.toJsonArr, Item.fromJsonArr,
            tradeItemFormat, myTradeItemFormat, itemFormatFor, applyMsHeuristic]⟩
        · exact ⟨_, applyMsHeuristic_num_ne n h0 _ _,
            applyMsHeuristic_num_ne n h0 _ _,
            by simp [pyEq, eqOfCls, tradeEqPy, itemObjectEqPy, isSubclassOf, jeq_refl,
            applyListData, Item.setP, Item.getP, Item.toJsonArr, Item.fromJsonArr,
            tradeItemFormat, myTradeItemFormat, itemFormatFor, applyMsHeuristic]⟩
  · rintro ⟨pid, sym, itv, ts, tsc, po, pc, ph, pl, vol, tc, ms⟩ hts
    rcases hts with h | ⟨n, h⟩ <;> subst h
    · exact ⟨_, rfl, rfl, by simp [candleEqPy, itemObjectEqFields, jeq_refl, jeq, applyListData,
            Candle.setP, Candle.getP, Candle.toJsonArr, Candle.fromJsonArr,
            candleFormat, applyMsHeuristic]⟩
    · by_cases h0 : n = 0
      · subst h0
        exact ⟨_, rfl, rfl, by simp [candleEqPy, itemObjectEqFields, jeq_refl, jeq, applyListData,
            Candle.setP, Candle.getP, Candle.toJsonArr, Candle.fromJsonArr,
            candleFormat, applyMsHeuristic]⟩
      · exact ⟨_, applyMsHeuristic_num_ne n h0 _ _,
          applyMsHeuristic_num_ne n h0 _ _,
          by simp [candleEqPy, itemObjectEqFields, jeq_refl, jeq, applyListData,
            Candle.setP, Candle.getP, Candle.toJsonArr, Candle.fromJsonArr,
            candleFormat, applyMsHeuristic]⟩
  · rintro ⟨pid, sym, ts, pr, ms⟩ hts
    rcases hts with h | ⟨n, h⟩ <;> subst h
    · exact ⟨_, rfl, rfl, by simp [tickerEqPy, itemObjectEqFields, jeq_refl, jeq, applyListData,
            Ticker.setP, Ticker.getP, Ticker.toJsonArr, Ticker.fromJsonArr,
            tickerFormat, applyMsHeuristic]⟩
    · by_cases h0 : n = 0
      · subst h0
        exact ⟨_, rfl, rfl, by simp [tickerEqPy, itemObjectEqFields, jeq_refl, jeq, applyListData,
            Ticker.setP, Ticker.getP, Ticker.toJsonArr, Ticker.fromJsonArr,
            tickerFormat, applyMsHeuristic]⟩
      · exact ⟨_, applyMsHeuristic_num_ne n h0 _ _,
          applyMsHeuristic_num_ne n h0 _ _,
          by simp [tickerEqPy, itemObjectEqFields, jeq_refl, jeq, applyListData,
            Ticker.setP, Ticker.getP, Ticker.toJsonArr, Ticker.fromJsonArr,
            tickerFormat, applyMsHeuristic]⟩
  · rintro ⟨pid, sym, ts, bb, ba, ms⟩ hts
    rcases hts with h | ⟨n, h⟩ <;> subst h
    · exact ⟨_, rfl, rfl, by simp [quoteEqPy, itemObjectEqFields, jeq_refl, jeq, applyListData,
            Quote.setP, Quote.getP, Quote.toJsonArr, Quote.fromJsonArr,
            quoteFormat, applyMsHeuristic]⟩
    · by_cases h0 : n = 0
      · subst h0
        exact ⟨_, rfl, rfl, by simp [quoteEqPy, itemObjectEqFields, jeq_refl, jeq, applyListData,
            Quote.setP, Quote.getP, Quote.toJsonArr, Quote.fromJsonArr,
            quoteFormat, applyMsHeuristic]⟩
      · exact ⟨_, applyMsHeuristic_num_ne n h0 _ _,
          applyMsHeuristic_num_ne n h0 _ _,
          by simp [quoteEqPy, itemObjectEqFields, jeq_refl, jeq, applyListData,
            Quote.setP, Quote.getP, Quote.toJsonArr, Quote.fromJsonArr,
            quoteFormat, applyMsHeuristic]⟩
  · rintro ⟨pid, ts, ms⟩ hts
    rcases hts with h | ⟨n, h⟩ <;> subst h
    · exact ⟨_, rfl, rfl, by simp [accountEqPy, jeq_refl, applyListData, Account.setP, Account.getP,
            Account.toJsonArr, Account.fromJsonArr, accountFormat, applyMsHeuristic]⟩
    · by_cases h0 : n = 0
      · subst h0
        exact ⟨_, rfl, rfl, by simp [accountEqPy, jeq_refl, applyListData, Account.setP, Account.getP,
            Account.toJsonArr, Account.fromJsonArr, accountFormat, applyMsHeuristic]⟩
      · exact ⟨_, applyMsHeuristic_num_ne n h0 _ _,
          applyMsHeuristic_num_ne n h0 _ _,
          by simp [accountEqPy, jeq_refl, applyListData, Account.setP, Account.getP,
            Account.toJsonArr, Account.fromJsonArr, accountFormat, applyMsHeuristic]⟩
  · rintro ⟨pid, sym, av, ar, ab, pnl, mb⟩
    exact ⟨rfl, by simp [balanceEqPy, jeq_refl, applyListData, Balance.setP, Balance.getP,
            Balance.toJsonArr, Balance.fromJsonArr, balanceFormat]⟩
  · rintro ⟨pid, sym, ts, iid, uoid, ot, ao, ae, pr, ps, dir, os, ms⟩ hts
    rcases hts with h | ⟨n, h⟩ <;> subst h
    · exact ⟨_, rfl, rfl, by simp [orderEqPy, itemObjectEqFields, jeq_refl, applyListData, Order.setP,
            Order.getP, Order.toJsonArr, Order.fromJsonArr, orderFormat,
            applyMsHeuristic]⟩
    · by_cases h0 : n = 0
      · subst h0
        exact ⟨_, rfl, rfl, by simp [orderEqPy, itemObjectEqFields, jeq_refl, applyListData, Order.setP,
            Order.getP, Order.toJsonArr, Order.fromJsonArr, orderFormat,
            applyMsHeuristic]⟩
      · exact ⟨_, applyMsHeuristic_num_ne n h0 _ _,
          applyMsHeuristic_num_ne n h0 _ _,
          by simp [orderEqPy, itemObjectEqFields, jeq_refl, applyListData, Order.setP,
            Order.getP, Order.toJsonArr, Order.fromJsonArr, orderFormat,
            applyMsHeuristic]⟩
  · rintro ⟨pid, sym, ts, am, dir, ap, mp, pnl, ab, ms⟩ hts
    rcases hts with h | ⟨n, h⟩ <;> subst h
    · exact ⟨_, rfl, rfl, by simp [positionEqPy, jeq_refl, applyListData, Position.setP, Position.getP,
            Position.toJsonArr, Position.fromJsonArr, positionFormat,
            applyMsHeuristic]⟩
    · by_cases h0 : n = 0
      · subst h0
        exact ⟨_, rfl, rfl, by simp [positionEqPy, jeq_refl, applyListData, Position.setP, Position.getP,
            Position.toJsonArr, Position.fromJsonArr, positionFormat,
            applyMsHeuristic]⟩
      · exact ⟨_, applyMsHeuristic_num_ne n h0 _ _,
          applyMsHeuristic_num_ne n h0 _ _,
          by simp [positionEqPy, jeq_refl, applyListData, Position.setP, Position.getP,
            Position.toJsonArr, Position.fromJsonArr, positionFormat,
            applyMsHeuristic]⟩

/-- A partially-None candle used to witness the round-trip theorem. -/
def aCandle : Candle :=
  { platform_id := .num 1, symbol := .str "BTCUSD", interval := .str "1m",
    timestamp := .num 1600000000000, price_open := .num 100,
    price_high := .num 110, price_low := .num 90, volume := .num 5 }

/-- C7, witness: instantiating the round-trip theorem at a concrete
partially-None candle with an integer timestamp. -/
theorem serialization_roundtrip_amended_witness :
    ∃ r, Candle.fromJsonArr (Candle.toJsonArr aCandle) = some r
      ∧ Candle.fromJsonMap (Candle.toJsonMap aCandle) = some r
      ∧ candleEqPy r aCandle = true :=
  serialization_roundtrip_amended.2.1 aCandle (Or.inr ⟨1600000000000, rfl⟩)

/-! The WebSocket converter: subscription generation
(`WSConverter.generate_subscriptions`) and subscription storage
(`WSConverter._store_subscription`). -/

/-- One piece of a platform endpoint template string: literal text or a
`{name}` placeholder (the structural form of e.g. `{symbol}@kline_{interval}`
from the Binance converter). -/
inductive TplPart where
  | lit (s : String)
  | param (name : String)
deriving DecidableEq, Repr

/-- A nested `param_value_lookup`: per-param-name value dicts, plus the
top-level dict which `_get_platform_param_value` falls back to as a value
lookup when the param name is not a key (`lookup.get(name, lookup)`).  Dict
keys are arbitrary hashable values (interval strings, Direction ints, ...),
so the dicts are JValue-keyed association lists looked up with Python `==`.
Only the plain-valued top-level entries are modelled in `flat`: looking up a
param value that collides with a nested-dict key name does not occur in the
claims. -/
structure PVLookup where
  byName : String → Option (List (JValue × JValue))
  flat : List (JValue × JValue)

/-- The converting info of a WSConverter subclass read by the modelled
methods. -/
structure WSConv where
  supported_endpoints : List String
  symbol_endpoints : List String
  supported_symbols : Option (List String)
  lookupTpl : String → Option (List TplPart)
  is_delimiter_used : Bool
  symbol_delimiter : String
  param_value_lookup : Option PVLookup
  is_subscription_command_supported : Bool

/-- Python `str.lower` (char-wise; endpoint names are ASCII). -/
def pyLower (s : String) : String := String.mk (s.data.map Char.toLower)

/-- Python `str.upper` (char-wise; symbols are ASCII). -/
def pyUpper (s : String) : String := String.mk (s.data.map Char.toUpper)

/-- Python `value.replace(old, new)` for a single-character pattern. -/
def pyReplaceChar (s : String) (old : Char) (new : String) : String :=
  String.mk (s.data.flatMap fun c => if c == old then new.data else [c])

/-- String rendering of a param value interpolated into a template (`str` in
Python's `format`); only strings and numbers occur in the claims. -/
def renderValue : JValue → Option String
  | .str s => some s
  | .num n => some (toString n)
  | _ => none

/-- `ProtocolConverter._get_platform_param_value`: symbol values get their
delimiter replaced when `is_delimiter_used`, list values pass through, and
other values go through the per-name value dict (or the top-level dict when
the name has no dict). -/
def getPlatformParamValue (cfg : WSConv) (name : String) (v : JValue) : JValue :=
  let v :=
    if name == "symbol" then
      match v with
      | .str s =>
          if cfg.is_delimiter_used then
            .str (pyReplaceChar s '_' cfg.symbol_delimiter)
          else .str s
      | v => v
    else v
  match v with
  | .arr l => .arr l
  | v =>
      match cfg.param_value_lookup with
      | none => v
      | some lk =>
          let dict := (lk.byName name).getD lk.flat
          ((dict.find? fun kv => jeq kv.1 v).map fun kv => kv.2).getD v

/-- The dict comprehension of `_convert_param_values_to_platform`: drop
None-valued params and convert the rest. -/
def convertParamValues (cfg : WSConv) (ps : List (String × JValue)) :
    List (String × JValue) :=
  ps.filterMap fun kv =>
    if kv.2 = .null then none else some (kv.1, getPlatformParamValue cfg kv.1 kv.2)

/-- `platform_endpoint.format(**platform_params)`: literals pass through, a
placeholder takes the (stringified) param value and raises KeyError (`none`)
when the param is missing. -/
def renderTpl : List TplPart → List (String × JValue) → Option String
  | [], _ => some ""
  | .lit s :: rest, ps => (renderTpl rest ps).map fun r => s ++ r
  | .param k :: rest, ps => do
      let v ← lookupParam ps k
      let s ← renderValue v
      let r ← renderTpl rest ps
      pure (s ++ r)

/-- `ProtocolConverter._get_platform_endpoint` for a WS converter: look the
endpoint up in `endpoint_lookup` (default: the endpoint itself, a pure
literal), convert the param values and render. -/
def getPlatformEndpoint (cfg : WSConv) (endpoint : String)
    (params : List (String × JValue)) : Option String :=
  let platform_params := convertParamValues cfg params
  let tpl := (cfg.lookupTpl endpoint).getD [TplPart.lit endpoint]
  renderTpl tpl platform_params

/-- The dict `{ParamName.SYMBOL: symbol, **params}` built by
`_generate_subscription`: the symbol entry comes first and an explicit symbol
key inside `params` overrides it. -/
def withSymbolParam (symbol : JValue) (params : List (String × JValue)) :
    List (String × JValue) :=
  ("symbol", (lookupParam params "symbol").getD symbol)
    :: params.filter fun kv => !(kv.1 == "symbol")

/-- `WSConverter._generate_subscription`. -/
def generateSubscription (cfg : WSConv) (endpoint : String) (symbol : JValue)
    (params : List (String × JValue)) : Option String :=
  getPlatformEndpoint cfg endpoint (withSymbolParam symbol params)

/-- Python `params[name] = value` on a params dict. -/
def assocSet (ps : List (String × JValue)) (k : String) (v : JValue) :
    List (String × JValue) :=
  if ps.any fun kv => kv.1 == k then
    ps.map fun kv => if kv.1 == k then (k, v) else kv
  else ps ++ [(k, v)]

/-- `WSConverter._introduce_values_to_params_list`: skip falsy names and
values, seed an empty params list with `[{}]`, break list values into their
elements when allowed, and emit one params dict per (value, params)
combination, value-major. -/
def introduceValues (params_list : List (List (String × JValue))) (name : String)
    (value : JValue) (is_break : Bool) : List (List (String × JValue)) :=
  if name = "" || !jtruthy value then params_list
  else
    let pl := if params_list.isEmpty then [[]] else params_list
    let values : List JValue :=
      match value, is_break with
      | .arr l, true => l
      | v, _ => [v]
    values.foldl (fun acc v => acc ++ pl.map fun ps => assocSet ps name v) []

/-- `WSConverter._break_params_to_params_list` (an empty params dict yields
`[]`); list values are not broken for the PLATFORM_ID of ORDER_BOOK_AGG. -/
def breakParams (endpoint : String) (params : List (String × JValue)) :
    List (List (String × JValue)) :=
  params.foldl
    (fun acc kv =>
      introduceValues acc kv.1 kv.2
        (!(endpoint == "orderbook_agg") || !(kv.1 == "platform_id")))
    []

/-- `WSConverter.generate_subscriptions`: per endpoint, break the params into
a params list (`or [{}]`), then generate one subscription per
(params_item, symbol) for symbol endpoints with truthy symbols, and a
symbol-less subscription otherwise.  The source accumulates into a set; the
model returns the generation sequence, whose `toFinset` is the set. -/
def generate_subscriptions (cfg : WSConv) (endpoints : List String)
    (symbols : Option (List String)) (params : List (String × JValue)) :
    Option (List String) :=
  endpoints.foldlM
    (fun acc endpoint => do
      let b := breakParams endpoint params
      let params_list := if b.isEmpty then [[]] else b
      params_list.foldlM
        (fun acc2 params_item => do
          if endpoint ∈ cfg.symbol_endpoints then
            match symbols with
            | some ss =>
                if ss.isEmpty then do
                  let s ← generateSubscription cfg endpoint .null params_item
                  pure (acc2 ++ [s])
                else do
                  let l ← ss.mapM fun sym =>
                    generateSubscription cfg endpoint (.str sym) params_item
                  pure (acc2 ++ l)
            | none => do
                let s ← generateSubscription cfg endpoint .null params_item
                pure (acc2 ++ [s])
          else do
            let s ← generateSubscription cfg endpoint .null params_item
            pure (acc2 ++ [s]))
        acc)
    []

/-- The reverse map `endpoint_symbol_params_by_subscription`: subscription
string to (endpoint, symbol, params). -/
abbrev SubStore : Type :=
  List (String × (String × String × List (String × JValue)))

/-- Overwrite-or-append an entry of the reverse map. -/
def storePut (store : SubStore) (k : String)
    (v : String × String × List (String × JValue)) : SubStore :=
  if store.any fun kv => kv.1 == k then
    store.map fun kv => if kv.1 == k then (k, v) else kv
  else store ++ [(k, v)]

/-- The `{k: v if isinstance(v, list) else [v]}` normalization of
`_store_subscription`. -/
def normStoreParams (params : List (String × JValue)) : List (String × JValue) :=
  params.map fun kv =>
    (kv.1, match kv.2 with | .arr l => .arr l | v => .arr [v])

/-- The `itertools.product` of the normalized param value lists, zipped back
with the keys: one single-valued params dict per combination. -/
def paramCombos : List (String × JValue) → List (List (String × JValue))
  | [] => [[]]
  | (k, v) :: rest =>
      let vs := match v with | .arr l => l | v => [v]
      let tails := paramCombos rest
      vs.flatMap fun x => tails.map fun t => (k, x) :: t

/-- `WSConverter._store_subscription`: normalize the params, default the
symbols to `[""]`, and for every (endpoint, symbol, single-param combination)
store `(endpoint, symbol, params)` - the normalized params dict with its full
value lists, not the single combination - under every subscription generated
for that combination.  Iterating `endpoints=None` raises TypeError
(`none`). -/
def storeSubscription (cfg : WSConv) (store : SubStore)
    (endpoints symbols : Option (List String))
    (params : List (String × JValue)) : Option SubStore := do
  let normParams := normStoreParams params
  let symbols₁ : List String :=
    match symbols with
    | none => [""]
    | some [] => [""]
    | some ss => ss
  let eps ← endpoints
  let combos := paramCombos normParams
  eps.foldlM
    (fun acc e =>
      symbols₁.foldlM
        (fun acc2 s =>
          combos.foldlM
            (fun acc3 combo => do
              let subs ← generate_subscriptions cfg [e] (some [s]) combo
              pure (subs.foldl
                (fun a4 sub => storePut a4 sub (e, s, normParams)) acc3))
            acc2)
        acc)
    store

/-- The base WSConverter converting info: no endpoint templates, no value
lookups, subscription commands supported. -/
def wsConverterBase : WSConv :=
  { supported_endpoints :=
      ["trade", "candle", "ticker", "ticker_all", "orderbook",
       "orderbook_diff", "quote"],
    symbol_endpoints :=
      ["trade", "candle", "ticker", "orderbook", "orderbook_diff",
       "orderbook_agg", "quote"],
    supported_symbols := none,
    lookupTpl := fun _ => none,
    is_delimiter_used := false,
    symbol_delimiter := "",
    param_value_lookup := none,
    is_subscription_command_supported := true }

/-- `Endpoint.ALL` from the api module. -/
def endpointALL : List String :=
  ["time", "symbols", "trade", "trade/history", "trade/my",
   "trade/my/history/", "candle", "ticker", "ticker_all", "orderbook",
   "orderbook_diff", "orderbook_agg", "account", "balance",
   "balance_converted", "symbols/active", "order", "order/create",
   "order/cancel", "order/current", "order/all", "order/all/cancel",
   "order/test", "position", "position/close", "quote", "format",
   "leverage/set"]

/-- `Endpoint.convert_to_endpoints`: lowercase every endpoint and keep the
members of `Endpoint.ALL`. -/
def convert_to_endpoints (l : List String) : List String :=
  l.filterMap fun e =>
    let el := pyLower e
    if el ∈ endpointALL then some el else none

/-- `Currency.convert_to_symbols` on a list: keep truthy entries, uppercase
them and normalize the delimiters. -/
def convert_to_symbols (l : List String) : List String :=
  l.filterMap fun s =>
    if s = "" then none
    else some (pyReplaceChar (pyReplaceChar (pyUpper s) '-' "_") '/' "_")

/-- The WSClient state the modelled methods read and write.  A fresh client
is not started, so the `_subscribe`/`_unsubscribe` connection helpers take
their reconnect branch and leave the subscription sets unchanged; they are
therefore not modelled further. -/
structure WSClientState where
  current_subscriptions : Finset String := ∅
  pending_subscriptions : Finset String := ∅
  successful_subscriptions : Finset String := ∅
  failed_subscriptions : Finset String := ∅
  symbols_by_endpoint : List (String × Finset String) := []
  store : SubStore := []
deriving DecidableEq

/-- A fresh WSClient: every subscription set empty. -/
def freshWSClient : WSClientState := {}

/-- Python falsiness of an endpoints/symbols argument: None or an empty
list. -/
def optFalsy : Option (List String) → Bool
  | none => true
  | some l => l.isEmpty

/-- `WSClient._get_subscriptions_for`.  When the endpoints argument is falsy
it falls back to `symbols_by_endpoint or supported_endpoints`; with a
non-empty `symbols_by_endpoint` the fallback is a dict, and the
`isinstance(dict)` branch rebinds `endpoints = set()` (with `symbols` and
`subscriptions`) BEFORE aliasing `symbols_by_endpoints = endpoints`, so its
loop iterates the freshly emptied alias and the branch returns three empty
sets.  Otherwise endpoints are normalized and intersected with the supported
set; an empty intersection returns the `(None, None, None)` triple.  Falsy
symbols fall back to the converter's `supported_symbols` (None on the
modelled converters). -/
def getSubscriptionsFor (cfg : WSConv) (st : WSClientState)
    (endpoints symbols : Option (List String))
    (params : List (String × JValue)) :
    Option (Option (List String) × Option (List String) × Option (Finset String)) :=
  if optFalsy endpoints && !st.symbols_by_endpoint.isEmpty then
    some (some [], some [], some (∅ : Finset String))
  else
    let eps₀ := if optFalsy endpoints then cfg.supported_endpoints
                else endpoints.getD []
    let eps₁ := convert_to_endpoints eps₀
    let epsSet := (eps₁.filter fun e => e ∈ cfg.supported_endpoints).dedup
    if epsSet.isEmpty then
      some (none, none, none)
    else
      let syms₀ : Option (List String) :=
        match symbols with
        | none => cfg.supported_symbols
        | some l => if l.isEmpty then cfg.supported_symbols else some l
      let syms := syms₀.map convert_to_symbols
      (generate_subscriptions cfg epsSet syms params).map fun subs =>
        (some epsSet, syms, some subs.toFinset)

/-- `self.symbols_by_endpoint[endpoint].update(set(symbols))` over the
endpoints (a defaultdict of sets). -/
def updateSBE (sbe : List (String × Finset String)) (eps : List String)
    (ss : List String) : List (String × Finset String) :=
  eps.foldl
    (fun acc e =>
      if acc.any fun kv => kv.1 == e then
        acc.map fun kv => if kv.1 == e then (kv.1, kv.2 ∪ ss.toFinset) else kv
      else acc ++ [(e, ss.toFinset)])
    sbe

/-- `WSClient.subscribe` on the modelled state (the base client's
`convert_symbols_to_platform_format` is the identity): when both arguments
are falsy the adding triple is `(symbols_by_endpoint, None,
current_subscriptions.copy())` - `_store_subscription` then iterates the dict
keys - and otherwise `_get_subscriptions_for` runs.  The subscriptions are
stored, already-current ones are removed from the returned set when the
platform has no subscription command, `symbols_by_endpoint` is extended, the
current set is updated, and the (possibly reduced) subscription set is
returned.  A `None` triple component makes the subsequent iteration or set
call raise (`none`). -/
def WSClient.subscribe (cfg : WSConv) (st : WSClientState)
    (endpoints symbols : Option (List String))
    (params : List (String × JValue)) :
    Option (WSClientState × Finset String) := do
  let triple ←
    if optFalsy endpoints && optFalsy symbols then
      some (some (st.symbols_by_endpoint.map fun kv => kv.1),
            (none : Option (List String)),
            some st.current_subscriptions)
    else getSubscriptionsFor cfg st endpoints symbols params
  let (epsO, symsO, subsO) := triple
  let store₁ ← storeSubscription cfg st.store epsO symsO params
  let subs ← subsO
  let subsRet :=
    if cfg.is_subscription_command_supported then subs
    else subs \ st.current_subscriptions
  let sbe₁ :=
    match symsO, epsO with
    | some ss, some eps =>
        if ss.isEmpty then st.symbols_by_endpoint
        else updateSBE st.symbols_by_endpoint eps ss
    | _, _ => st.symbols_by_endpoint
  pure ({ st with
            store := store₁,
            symbols_by_endpoint := sbe₁,
            current_subscriptions := st.current_subscriptions ∪ subsRet },
        subsRet)

/-- C4, evaluation at the failing input: subscribing to a well-formed
endpoint ("position" is a member of Endpoint.ALL) that the WSConverter does
not support makes `_get_subscriptions_for` return the `(None, None, None)`
triple, and `subscribe` then passes the None endpoints straight into
`_store_subscription`, whose `itertools.product` raises TypeError - so the
call raises instead of returning a set, contradicting the claim (and the
source's own comment `Always is a set, not None`). -/
theorem subscribe_unsupported_endpoint_crash :
    WSClient.subscribe wsConverterBase freshWSClient (some ["position"])
        (some ["BTCUSD"]) [] = none := by
  rfl

end HyperQuant
